import Mathlib

/-!
Verification development for the WebGPU XOR-training repository.

The development shallowly embeds the two layers the claims are about:

* the GPU kernel layer (`src/utils/webgpu.ts`): the WGSL forward/backward
  compute shaders from `createNeuralNetworkPipeline` and the host-side step
  executor `trainNetwork`, modelled over `ℝ` (f32 arithmetic is modelled by
  real arithmetic; `sigmoid` uses `Real.exp` exactly as the shader's
  `1.0 / (1.0 + exp(-x))`);

* the orchestrator layer (`src/contexts/NetworkContext.tsx`): the React
  provider's refs and state are collected into one record `OrchState`, and
  `generateTrainingData` / `trainingLoop` / `stopTraining` / `updateConfig` /
  `startTraining` become pure state transformers over `ℚ`.  The numeric
  outcome of the k-th GPU step is abstracted as an arbitrary function
  `f : Nat → StepOutcome` of the step index, because the orchestrator claims
  concern only bookkeeping (counters, history lists, epoch records), not the
  numeric values the device produces.
-/

/-- `NeuralNetworkConfig` from `src/types/network.d.ts`.  Dimensions are
natural numbers; the learning rate is kept rational so the orchestrator layer
stays computable, and is coerced to `ℝ` inside the kernels. -/
structure NeuralNetworkConfig where
  inputSize : Nat
  hiddenSize : Nat
  outputSize : Nat
  learningRate : ℚ
deriving DecidableEq

/-! ## Kernel layer: the WGSL shaders and `trainNetwork` (`src/utils/webgpu.ts`) -/

noncomputable section

/-- `fn sigmoid(x: f32) -> f32 { return 1.0 / (1.0 + exp(-x)); }` -/
def sigmoid (x : ℝ) : ℝ := 1 / (1 + Real.exp (-x))

/-- `fn sigmoid_derivative(x: f32) { let s = sigmoid(x); return s * (1.0 - s); }` -/
def sigmoid_derivative (x : ℝ) : ℝ := sigmoid x * (1 - sigmoid x)

/-- The storage buffers bound at `@group(0)` bindings 0–10.  Each `array<f32>`
buffer is modelled as a total function `Nat → ℝ`; the `loss` buffer holds a
single f32 (`createBuffers` allocates it with one element and only slot 0 is
ever addressed). -/
structure KernelState where
  inputData : Nat → ℝ
  weightsHidden : Nat → ℝ
  weightsOutput : Nat → ℝ
  biasHidden : Nat → ℝ
  biasOutput : Nat → ℝ
  hiddenLayer : Nat → ℝ
  outputLayer : Nat → ℝ
  targetOutput : Nat → ℝ
  hiddenGradients : Nat → ℝ
  outputGradients : Nat → ℝ
  loss : ℝ

/-- The `forward` entry point, dispatched over `max(hiddenSize, outputSize)`
invocations.  Invocation `j < hiddenSize` writes
`hiddenLayer[j] = sigmoid(biasHidden[j] + Σ_{i<inputSize} inputData[i] *
weightsHidden[i*hiddenSize + j])`; invocation `j < outputSize` writes
`outputLayer[j] = sigmoid(biasOutput[j] + Σ_{i<hiddenSize} hiddenLayer[i] *
weightsOutput[i*outputSize + j])`.  The source has no barrier between the two
blocks, so one invocation's output-layer read of `hiddenLayer` races other
invocations' writes; the model takes the sequential semantics (hidden layer
fully computed before the output layer), which is the spec's stated reading
and the only deterministic one. -/
def forwardPass (cfg : NeuralNetworkConfig) (s : KernelState) : KernelState :=
  let hidden : Nat → ℝ := fun j =>
    if j < cfg.hiddenSize then
      sigmoid (s.biasHidden j + ∑ i in Finset.range cfg.inputSize,
        s.inputData i * s.weightsHidden (i * cfg.hiddenSize + j))
    else s.hiddenLayer j
  let output : Nat → ℝ := fun j =>
    if j < cfg.outputSize then
      sigmoid (s.biasOutput j + ∑ i in Finset.range cfg.hiddenSize,
        hidden i * s.weightsOutput (i * cfg.outputSize + j))
    else s.outputLayer j
  { s with hiddenLayer := hidden, outputLayer := output }

/-- The `backward` entry point.  Invocation `n < outputSize` computes
`error = outputLayer[n] - targetOutput[n]`, stores the raw error into
`loss[0]` when `n = 0` (the shader comment reads "Store raw error, not
squared"), sets `outputGradients[n] = 2.0 * error * sigmoid_derivative
(outputLayer[n])`, subtracts `learning_rate * outputGradients[n] *
hiddenLayer[i]` from `weightsOutput[i*outputSize + n]` for each
`i < hiddenSize`, and subtracts `learning_rate * outputGradients[n]` from
`biasOutput[n]`.  Distinct invocations write disjoint slots, so the parallel
dispatch is modelled pointwise.  The shader contains no code at all for
`hiddenGradients`, `weightsHidden` or `biasHidden`. -/
def backwardPass (cfg : NeuralNetworkConfig) (s : KernelState) : KernelState :=
  let grad : Nat → ℝ := fun n =>
    if n < cfg.outputSize then
      2 * (s.outputLayer n - s.targetOutput n) * sigmoid_derivative (s.outputLayer n)
    else s.outputGradients n
  { s with
    loss := if 0 < cfg.outputSize then s.outputLayer 0 - s.targetOutput 0 else s.loss
    outputGradients := grad
    weightsOutput := fun idx =>
      if idx % cfg.outputSize < cfg.outputSize ∧ idx / cfg.outputSize < cfg.hiddenSize then
        s.weightsOutput idx -
          (cfg.learningRate : ℝ) * grad (idx % cfg.outputSize) * s.hiddenLayer (idx / cfg.outputSize)
      else s.weightsOutput idx
    biasOutput := fun n =>
      if n < cfg.outputSize then
        s.biasOutput n - (cfg.learningRate : ℝ) * grad n
      else s.biasOutput n }

/-- The value returned by `trainNetwork` (minus the console logging). -/
structure StepResult where
  loss : ℝ
  accuracy : ℝ
  outputLayer : Nat → ℝ
  hiddenLayer : Nat → ℝ
  inputLayer : Nat → ℝ

/-- `trainNetwork` from `src/utils/webgpu.ts`: zero the loss buffer, upload
input and target, dispatch forward then backward (each awaited), read back the
loss buffer, output and hidden activations, then host-side compute
`mseLoss = error * error` with `error = outputLayer[0] - targetData[0]` and
`accuracy = (prediction > 0.5 ? 1 : 0) === target ? 1 : 0`.  The returned pair
is (the `StepResult` handed to the caller, the device state after the step);
the device state's `loss` field is exactly the scalar `readBuffer` returned,
which the source binds to `loss` and never uses. -/
def trainNetwork (cfg : NeuralNetworkConfig) (s : KernelState)
    (inputData targetData : Nat → ℝ) : StepResult × KernelState :=
  let s1 : KernelState :=
    { s with loss := 0, inputData := inputData, targetOutput := targetData }
  let s2 := forwardPass cfg s1
  let s3 := backwardPass cfg s2
  let prediction := s3.outputLayer 0
  let target := targetData 0
  let error := prediction - target
  let mseLoss := error * error
  let binaryPrediction : ℝ := if prediction > 1/2 then 1 else 0
  let accuracy : ℝ := if binaryPrediction = target then 1 else 0
  (⟨mseLoss, accuracy, s3.outputLayer, s3.hiddenLayer, inputData⟩, s3)

/-- The default configuration of the provider
(`{inputSize: 2, hiddenSize: 4, outputSize: 1, learningRate: 0.01}`). -/
def cfgXor : NeuralNetworkConfig :=
  { inputSize := 2, hiddenSize := 4, outputSize := 1, learningRate := 1/100 }

/-- The all-zero buffer contents (0 lies in the `[-1, 1)` initial weight
range), used as a concrete reachable device state for counterexamples. -/
def zeroKernelState : KernelState :=
  { inputData := fun _ => 0, weightsHidden := fun _ => 0,
    weightsOutput := fun _ => 0, biasHidden := fun _ => 0,
    biasOutput := fun _ => 0, hiddenLayer := fun _ => 0,
    outputLayer := fun _ => 0, targetOutput := fun _ => 0,
    hiddenGradients := fun _ => 0, outputGradients := fun _ => 0, loss := 0 }

/-- The constantly-zero vector: XOR row `[0, 0] → [0]` as input and target. -/
def zeroFun : Nat → ℝ := fun _ => 0

end

/-! ## Orchestrator layer: `src/contexts/NetworkContext.tsx` -/

/-- `NetworkWeights` from `src/types/network.d.ts`: four flat host-side
arrays, modelled as rational lists. -/
structure NetworkWeights where
  weightsHidden : List ℚ
  weightsOutput : List ℚ
  biasHidden : List ℚ
  biasOutput : List ℚ
deriving DecidableEq

/-- `NetworkState`: the host-visible snapshot held in React state. -/
structure NetworkState where
  inputLayer : List ℚ
  hiddenLayer : List ℚ
  outputLayer : List ℚ
  weights : NetworkWeights
deriving DecidableEq

/-- `TrainingMetrics` (the optional `accuracy` field is modelled as always
present, defaulting to 0). -/
structure TrainingMetrics where
  loss : ℚ
  epoch : Nat
  accuracy : ℚ
deriving DecidableEq

/-- `SampleHistory`: one record appended per completed step. -/
structure SampleHistory where
  epoch : Nat
  input : List ℚ
  target : ℚ
  prediction : ℚ
  loss : ℚ
deriving DecidableEq

/-- `EpochMetrics`: one record appended per completed epoch. -/
structure EpochMetrics where
  epoch : Nat
  loss : ℚ
  accuracy : ℚ
deriving DecidableEq

/-- What one call to the step executor hands back to the training loop: the
fields of `trainNetwork`'s result that the loop reads (`loss`, `accuracy`,
`hiddenLayer`, `outputLayer`; `prediction` is `outputLayer[0]`). -/
structure StepOutcome where
  loss : ℚ
  accuracy : ℚ
  hiddenLayer : List ℚ
  outputLayer : List ℚ
deriving DecidableEq

/-- The provider's React state and refs, collected into one record:
`config`, `networkState`, `metrics`, `isTraining`, `maxEpochs`,
`sampleHistory`, `epochMetrics` (React state) and `samplesProcessedRef`,
`epochCompletedRef`, `epochLossSumRef`, `epochAccuracySumRef`,
`samplesInEpochRef` (refs). -/
structure OrchState where
  config : NeuralNetworkConfig
  networkState : Option NetworkState
  metrics : TrainingMetrics
  isTraining : Bool
  maxEpochs : Nat
  sampleHistory : List SampleHistory
  epochMetrics : List EpochMetrics
  samplesProcessed : Nat
  epochCompleted : Nat
  epochLossSum : ℚ
  epochAccuracySum : ℚ
  samplesInEpoch : Nat
deriving DecidableEq

/-- The fixed XOR truth table from `generateTrainingData`. -/
def xorData : List (List ℚ × List ℚ) :=
  [([0, 0], [0]), ([0, 1], [1]), ([1, 0], [1]), ([1, 1], [0])]

/-- `generateTrainingData`: reads `samplesProcessedRef.current % xorData.length`
to pick the row, increments the counter, and bumps `epochCompletedRef` when
the picked row was the last one.  Returns the `(inputData, targetData)` pair
together with the updated state. -/
def generateTrainingData (s : OrchState) : (List ℚ × List ℚ) × OrchState :=
  let sampleIndex := s.samplesProcessed % xorData.length
  let sample := xorData.getD sampleIndex ([], [])
  (sample,
    { s with
      samplesProcessed := s.samplesProcessed + 1
      epochCompleted := if sampleIndex = xorData.length - 1
        then s.epochCompleted + 1 else s.epochCompleted })

/-- `stopTraining`: sets `isTraining` to false (the accompanying
`cancelAnimationFrame` acts only on the host scheduler, which is not part of
the state modelled here). -/
def stopTraining (s : OrchState) : OrchState := { s with isTraining := false }

/-- The body of `trainingLoop` past the max-epoch guard, for one step index.
`f k` stands for the `StepOutcome` the awaited `trainNetwork` call returns at
global step `k` (the loop's own bookkeeping does not depend on how the device
computed it).  After `generateTrainingData` has incremented the counter, the
source appends one `SampleHistory` record, replaces the `networkState`
snapshot keeping `prev.weights`, overwrites `metrics`, adds the step's loss
and accuracy into the epoch accumulators, and on every 4th step
(`samplesProcessed % 4 === 0`) appends one `EpochMetrics` record with the
accumulator means, overwrites `metrics` with those means, and resets the
accumulators. -/
def trainingLoopBody (f : Nat → StepOutcome) (s : OrchState) : OrchState :=
  let gen := generateTrainingData s
  let inputData := gen.1.1
  let targetData := gen.1.2
  let s1 := gen.2
  let result := f s.samplesProcessed
  let s2 : OrchState := { s1 with
    networkState := s1.networkState.map (fun prev =>
      { inputLayer := inputData
        hiddenLayer := result.hiddenLayer
        outputLayer := result.outputLayer
        weights := prev.weights })
    metrics := { loss := result.loss, accuracy := result.accuracy,
                 epoch := s1.samplesProcessed / 4 }
    sampleHistory := s1.sampleHistory ++ [{
      epoch := s1.samplesProcessed / 4
      input := inputData
      target := targetData.getD 0 0
      prediction := result.outputLayer.getD 0 0
      loss := result.loss }]
    epochLossSum := s1.epochLossSum + result.loss
    epochAccuracySum := s1.epochAccuracySum + result.accuracy
    samplesInEpoch := s1.samplesInEpoch + 1 }
  if s2.samplesProcessed % 4 = 0 then
    { s2 with
      epochMetrics := s2.epochMetrics ++ [{
        epoch := s2.samplesProcessed / 4
        loss := s2.epochLossSum / 4
        accuracy := s2.epochAccuracySum / 4 }]
      metrics := { loss := s2.epochLossSum / 4
                   epoch := s2.samplesProcessed / 4
                   accuracy := s2.epochAccuracySum / 4 }
      epochLossSum := 0
      epochAccuracySum := 0
      samplesInEpoch := 0 }
  else s2

/-- One invocation of `trainingLoop`: compute
`currentEpoch = floor(samplesProcessed / 4)`; if `currentEpoch >= maxEpochs`
call `stopTraining` and return without executing a step, otherwise run the
body above.  (The early return on missing device/buffer/pipeline refs is not
modelled: the loop is only entered from an initialized session.) -/
def trainingLoop (f : Nat → StepOutcome) (s : OrchState) : OrchState :=
  if s.maxEpochs ≤ s.samplesProcessed / 4 then stopTraining s
  else trainingLoopBody f s

/-- `n` invocations of the training loop (the `requestAnimationFrame`
re-scheduling iterates the loop one invocation at a time). -/
def runLoop (f : Nat → StepOutcome) : Nat → OrchState → OrchState
  | 0, s => s
  | n + 1, s => trainingLoop f (runLoop f n s)

/-- The provider state right after `startTraining` on a fresh provider:
counters and accumulators reset, `metrics` reset, `isTraining` set, history
lists still at their initial `useState([])` values (`startTraining` itself
never clears them), with the given already-initialized `networkState`. -/
def startState (cfg : NeuralNetworkConfig) (maxE : Nat)
    (st : Option NetworkState) : OrchState :=
  { config := cfg, networkState := st
    metrics := { loss := 0, epoch := 0, accuracy := 0 }
    isTraining := true, maxEpochs := maxE
    sampleHistory := [], epochMetrics := []
    samplesProcessed := 0, epochCompleted := 0
    epochLossSum := 0, epochAccuracySum := 0, samplesInEpoch := 0 }

/-- A partial configuration as accepted by `updateConfig` (spread-merged over
the previous configuration). -/
structure ConfigUpdate where
  inputSize : Option Nat := none
  hiddenSize : Option Nat := none
  outputSize : Option Nat := none
  learningRate : Option ℚ := none
deriving DecidableEq

/-- `{ ...prev, ...newConfig }` for a partial configuration. -/
def mergeConfig (prev : NeuralNetworkConfig) (p : ConfigUpdate) : NeuralNetworkConfig :=
  { inputSize := p.inputSize.getD prev.inputSize
    hiddenSize := p.hiddenSize.getD prev.hiddenSize
    outputSize := p.outputSize.getD prev.outputSize
    learningRate := p.learningRate.getD prev.learningRate }

/-- `updateConfig`: merges the partial configuration into `config` and sets
`networkState` to null.  This is the complete body of the source callback —
no other state is touched. -/
def updateConfig (p : ConfigUpdate) (s : OrchState) : OrchState :=
  { s with config := mergeConfig s.config p, networkState := none }

/-! ## Initialization: `initializeWebGPU`, `initializeNetworkWeights`,
`createBuffers`, `initializeNetwork` -/

/-- The two failure modes of `initializeWebGPU` ("WebGPU not supported",
"Couldn't request WebGPU adapter"). -/
inductive WebGPUError
  | webGPUNotSupported
  | noAdapter
deriving DecidableEq

/-- `initializeWebGPU`, with device availability supplied as parameters. -/
def initializeWebGPU (hasGpu hasAdapter : Bool) : Except WebGPUError Unit :=
  if !hasGpu then .error .webGPUNotSupported
  else if !hasAdapter then .error .noAdapter
  else .ok ()

/-- `initializeNetworkWeights`: allocates the four arrays at the §3 sizes and
fills each slot with `Math.random() * 2 - 1`; the random stream is supplied
as `rnd : Nat → ℚ`, consumed in allocation order. -/
def initializeNetworkWeights (cfg : NeuralNetworkConfig) (rnd : Nat → ℚ) :
    NetworkWeights :=
  let nwh := cfg.inputSize * cfg.hiddenSize
  let nwo := cfg.hiddenSize * cfg.outputSize
  { weightsHidden := (List.range nwh).map (fun i => rnd i * 2 - 1)
    weightsOutput := (List.range nwo).map (fun i => rnd (nwh + i) * 2 - 1)
    biasHidden := (List.range cfg.hiddenSize).map
      (fun i => rnd (nwh + nwo + i) * 2 - 1)
    biasOutput := (List.range cfg.outputSize).map
      (fun i => rnd (nwh + nwo + cfg.hiddenSize + i) * 2 - 1) }

/-- The eleven device buffers created by `createBuffers`: each is recorded by
its byte size (`Float32Array.BYTES_PER_ELEMENT = 4`), and the four weight
buffers also carry the initial contents that `device.queue.writeBuffer`
uploads before returning. -/
structure GPUBuffers where
  inputBufferSize : Nat
  weightsHiddenBufferSize : Nat
  weightsOutputBufferSize : Nat
  biasHiddenBufferSize : Nat
  biasOutputBufferSize : Nat
  hiddenLayerBufferSize : Nat
  outputLayerBufferSize : Nat
  targetOutputBufferSize : Nat
  hiddenGradientsBufferSize : Nat
  outputGradientsBufferSize : Nat
  lossBufferSize : Nat
  weightsHiddenContents : List ℚ
  weightsOutputContents : List ℚ
  biasHiddenContents : List ℚ
  biasOutputContents : List ℚ
deriving DecidableEq

/-- `createBuffers`: pure size bookkeeping plus the initial weight upload.
The function contains no validation of any kind. -/
def createBuffers (cfg : NeuralNetworkConfig) (w : NetworkWeights) : GPUBuffers :=
  { inputBufferSize := cfg.inputSize * 4
    weightsHiddenBufferSize := w.weightsHidden.length * 4
    weightsOutputBufferSize := w.weightsOutput.length * 4
    biasHiddenBufferSize := w.biasHidden.length * 4
    biasOutputBufferSize := w.biasOutput.length * 4
    hiddenLayerBufferSize := cfg.hiddenSize * 4
    outputLayerBufferSize := cfg.outputSize * 4
    targetOutputBufferSize := cfg.outputSize * 4
    hiddenGradientsBufferSize := cfg.hiddenSize * 4
    outputGradientsBufferSize := cfg.outputSize * 4
    lossBufferSize := 4
    weightsHiddenContents := w.weightsHidden
    weightsOutputContents := w.weightsOutput
    biasHiddenContents := w.biasHidden
    biasOutputContents := w.biasOutput }

/-- `initializeNetwork` from the provider: acquire the device, build host
weights, create buffers, compile pipelines (not modelled — pure compilation),
and produce the initial zero-activation `NetworkState`.  The body performs no
inspection of the configuration whatsoever; its only failure modes are the
device-acquisition errors. -/
def initializeNetwork (hasGpu hasAdapter : Bool) (cfg : NeuralNetworkConfig)
    (rnd : Nat → ℚ) : Except WebGPUError (NetworkWeights × GPUBuffers × NetworkState) :=
  match initializeWebGPU hasGpu hasAdapter with
  | .error e => .error e
  | .ok _ =>
    let weights := initializeNetworkWeights cfg rnd
    let buffers := createBuffers cfg weights
    .ok (weights, buffers,
      { inputLayer := List.replicate cfg.inputSize 0
        hiddenLayer := List.replicate cfg.hiddenSize 0
        outputLayer := List.replicate cfg.outputSize 0
        weights := weights })

/-! ## Concrete instances used by counterexamples and witnesses -/

/-- A trivial step outcome stream for concrete runs. -/
def f0 : Nat → StepOutcome := fun _ => { loss := 0, accuracy := 0, hiddenLayer := [], outputLayer := [] }

/-- A fresh training session at the default configuration, `maxEpochs = 10`. -/
def s00 : OrchState := startState cfgXor 10 none

/-- A fresh training session at the default configuration, `maxEpochs = 1`. -/
def s01 : OrchState := startState cfgXor 1 none

/-! ## Kernel evaluation lemmas -/

lemma sigmoid_zero : sigmoid 0 = 1/2 := by
  simp [sigmoid, Real.exp_zero]
  norm_num

lemma xorStep0_prediction :
    (trainNetwork cfgXor zeroKernelState zeroFun zeroFun).2.outputLayer 0 = 1/2 := by
  simp only [trainNetwork, backwardPass, forwardPass, cfgXor, zeroKernelState, zeroFun]
  norm_num [sigmoid_zero, Finset.sum_const_zero]

lemma sigmoid_half_bounds : 1/2 < sigmoid (1/2) ∧ sigmoid (1/2) < 2/3 := by
  have h1 : Real.exp (-(1/2)) < 1 := by
    rw [Real.exp_lt_one_iff]; norm_num
  have h2 : (1/2 : ℝ) < Real.exp (-(1/2)) := by
    have h := Real.add_one_lt_exp (show (-(1/2) : ℝ) ≠ 0 by norm_num)
    linarith
  have h3 : (0 : ℝ) < 1 + Real.exp (-(1/2)) := by linarith
  rw [sigmoid]
  constructor
  · rw [lt_div_iff₀ h3]; linarith
  · rw [div_lt_iff₀ h3]; linarith

lemma xorStep0_deviceLoss :
    (trainNetwork cfgXor zeroKernelState zeroFun zeroFun).2.loss = 1/2 := by
  simp only [trainNetwork, backwardPass, forwardPass, cfgXor, zeroKernelState, zeroFun]
  norm_num [sigmoid_zero, Finset.sum_const_zero]

lemma xorStep0_hostLoss :
    (trainNetwork cfgXor zeroKernelState zeroFun zeroFun).1.loss = 1/4 := by
  simp only [trainNetwork, backwardPass, forwardPass, cfgXor, zeroKernelState, zeroFun]
  norm_num [sigmoid_zero, Finset.sum_const_zero]

lemma xorStep0_accuracy :
    (trainNetwork cfgXor zeroKernelState zeroFun zeroFun).1.accuracy = 1 := by
  simp only [trainNetwork, backwardPass, forwardPass, cfgXor, zeroKernelState, zeroFun]
  norm_num [sigmoid_zero, Finset.sum_const_zero]

lemma xorStep0_gradient :
    (trainNetwork cfgXor zeroKernelState zeroFun zeroFun).2.outputGradients 0
      = sigmoid (1/2) * (1 - sigmoid (1/2)) := by
  simp only [trainNetwork, backwardPass, forwardPass, cfgXor, zeroKernelState, zeroFun,
    sigmoid_derivative]
  norm_num [sigmoid_zero, Finset.sum_const_zero]

/-! ## Orchestrator bookkeeping lemmas -/

/-- The `SampleHistory` record the loop appends at global step `k`. -/
def histEntry (f : Nat → StepOutcome) (k : Nat) : SampleHistory :=
  { epoch := (k + 1) / 4
    input := (xorData.getD (k % 4) ([], [])).1
    target := (xorData.getD (k % 4) ([], [])).2.getD 0 0
    prediction := (f k).outputLayer.getD 0 0
    loss := (f k).loss }

/-- The `EpochMetrics` record the loop appends when epoch `e` (steps `4e` to
`4e+3`) completes. -/
def epochEntry (f : Nat → StepOutcome) (e : Nat) : EpochMetrics :=
  { epoch := e + 1
    loss := (∑ j in Finset.range 4, (f (4 * e + j)).loss) / 4
    accuracy := (∑ j in Finset.range 4, (f (4 * e + j)).accuracy) / 4 }

lemma xorData_length : xorData.length = 4 := rfl

lemma body_samplesProcessed (f : Nat → StepOutcome) (t : OrchState) :
    (trainingLoopBody f t).samplesProcessed = t.samplesProcessed + 1 := by
  simp only [trainingLoopBody, generateTrainingData, xorData_length]
  split_ifs <;> rfl

lemma body_maxEpochs (f : Nat → StepOutcome) (t : OrchState) :
    (trainingLoopBody f t).maxEpochs = t.maxEpochs := by
  simp only [trainingLoopBody, generateTrainingData, xorData_length]
  split_ifs <;> rfl

lemma body_isTraining (f : Nat → StepOutcome) (t : OrchState) :
    (trainingLoopBody f t).isTraining = t.isTraining := by
  simp only [trainingLoopBody, generateTrainingData, xorData_length]
  split_ifs <;> rfl

lemma body_networkState (f : Nat → StepOutcome) (t : OrchState) :
    (trainingLoopBody f t).networkState = t.networkState.map (fun prev =>
      { inputLayer := (xorData.getD (t.samplesProcessed % 4) ([], [])).1
        hiddenLayer := (f t.samplesProcessed).hiddenLayer
        outputLayer := (f t.samplesProcessed).outputLayer
        weights := prev.weights }) := by
  simp only [trainingLoopBody, generateTrainingData, xorData_length]
  split_ifs <;> rfl

lemma body_sampleHistory (f : Nat → StepOutcome) (t : OrchState) :
    (trainingLoopBody f t).sampleHistory
      = t.sampleHistory ++ [histEntry f t.samplesProcessed] := by
  simp only [trainingLoopBody, generateTrainingData, xorData_length, histEntry]
  split_ifs <;> rfl

lemma body_epochMetrics_mid (f : Nat → StepOutcome) (t : OrchState)
    (h : ¬ (t.samplesProcessed + 1) % 4 = 0) :
    (trainingLoopBody f t).epochMetrics = t.epochMetrics := by
  simp only [trainingLoopBody, generateTrainingData, xorData_length]
  split_ifs <;> rfl

lemma body_epochMetrics_boundary (f : Nat → StepOutcome) (t : OrchState)
    (h : (t.samplesProcessed + 1) % 4 = 0) :
    (trainingLoopBody f t).epochMetrics = t.epochMetrics ++
      [{ epoch := (t.samplesProcessed + 1) / 4
         loss := (t.epochLossSum + (f t.samplesProcessed).loss) / 4
         accuracy := (t.epochAccuracySum + (f t.samplesProcessed).accuracy) / 4 }] := by
  simp only [trainingLoopBody, generateTrainingData, xorData_length]
  split_ifs <;> rfl

lemma body_lossSum_mid (f : Nat → StepOutcome) (t : OrchState)
    (h : ¬ (t.samplesProcessed + 1) % 4 = 0) :
    (trainingLoopBody f t).epochLossSum
      = t.epochLossSum + (f t.samplesProcessed).loss := by
  simp only [trainingLoopBody, generateTrainingData, xorData_length]
  split_ifs <;> rfl

lemma body_lossSum_boundary (f : Nat → StepOutcome) (t : OrchState)
    (h : (t.samplesProcessed + 1) % 4 = 0) :
    (trainingLoopBody f t).epochLossSum = 0 := by
  simp only [trainingLoopBody, generateTrainingData, xorData_length]
  split_ifs <;> rfl

lemma body_accSum_mid (f : Nat → StepOutcome) (t : OrchState)
    (h : ¬ (t.samplesProcessed + 1) % 4 = 0) :
    (trainingLoopBody f t).epochAccuracySum
      = t.epochAccuracySum + (f t.samplesProcessed).accuracy := by
  simp only [trainingLoopBody, generateTrainingData, xorData_length]
  split_ifs <;> rfl

lemma body_accSum_boundary (f : Nat → StepOutcome) (t : OrchState)
    (h : (t.samplesProcessed + 1) % 4 = 0) :
    (trainingLoopBody f t).epochAccuracySum = 0 := by
  simp only [trainingLoopBody, generateTrainingData, xorData_length]
  split_ifs <;> rfl

/-- Full characterization of `n` loop invocations from a fresh
`startTraining`: the step counter saturates at `4 * maxEpochs`, `isTraining`
drops exactly when the loop first runs past that boundary, the sample history
is the per-step trace, the epoch records are the per-epoch means, and the
accumulators hold the partial sums of the current epoch. -/
lemma runLoop_char (f : Nat → StepOutcome) (cfg : NeuralNetworkConfig) (maxE : Nat)
    (st : Option NetworkState) (n : Nat) :
    (runLoop f n (startState cfg maxE st)).samplesProcessed = min n (4 * maxE)
    ∧ (runLoop f n (startState cfg maxE st)).maxEpochs = maxE
    ∧ (runLoop f n (startState cfg maxE st)).isTraining = decide (n ≤ 4 * maxE)
    ∧ (runLoop f n (startState cfg maxE st)).sampleHistory
        = (List.range (min n (4 * maxE))).map (histEntry f)
    ∧ (runLoop f n (startState cfg maxE st)).epochMetrics
        = (List.range (min n (4 * maxE) / 4)).map (epochEntry f)
    ∧ (runLoop f n (startState cfg maxE st)).epochLossSum
        = ∑ j in Finset.range (min n (4 * maxE) % 4),
            (f (4 * (min n (4 * maxE) / 4) + j)).loss
    ∧ (runLoop f n (startState cfg maxE st)).epochAccuracySum
        = ∑ j in Finset.range (min n (4 * maxE) % 4),
            (f (4 * (min n (4 * maxE) / 4) + j)).accuracy := by
  induction n with
  | zero =>
    refine ⟨?_, rfl, ?_, ?_, ?_, ?_, ?_⟩ <;> simp [runLoop, startState]
  | succ n ih =>
    obtain ⟨h1, h2, h3, h4, h5, h6, h7⟩ := ih
    have hstep : runLoop f (n + 1) (startState cfg maxE st)
        = trainingLoop f (runLoop f n (startState cfg maxE st)) := rfl
    rw [hstep, trainingLoop]
    set t := runLoop f n (startState cfg maxE st) with ht
    by_cases hg : t.maxEpochs ≤ t.samplesProcessed / 4
    · rw [if_pos hg]
      have hn : 4 * maxE ≤ n := by
        rw [h2, h1] at hg; omega
      have hmin : min n (4 * maxE) = 4 * maxE := by omega
      have hmin' : min (n + 1) (4 * maxE) = 4 * maxE := by omega
      refine ⟨?_, h2, ?_, ?_, ?_, ?_, ?_⟩
      · show t.samplesProcessed = _
        rw [h1, hmin, hmin']
      · show (false : Bool) = _
        symm
        rw [decide_eq_false_iff_not]
        omega
      · show t.sampleHistory = _
        rw [h4, hmin, hmin']
      · show t.epochMetrics = _
        rw [h5, hmin, hmin']
      · show t.epochLossSum = _
        rw [h6, hmin, hmin']
      · show t.epochAccuracySum = _
        rw [h7, hmin, hmin']
    · rw [if_neg hg]
      have hlt : min n (4 * maxE) / 4 < maxE := by
        rw [h2, h1] at hg; omega
      have hn4 : n < 4 * maxE := by omega
      have hmn : min n (4 * maxE) = n := by omega
      have hmin' : min (n + 1) (4 * maxE) = n + 1 := by omega
      have hsp : t.samplesProcessed = n := by rw [h1, hmn]
      rw [hmn] at h4 h5 h6 h7
      refine ⟨?_, ?_, ?_, ?_, ?_, ?_, ?_⟩
      · rw [body_samplesProcessed, hsp, hmin']
      · rw [body_maxEpochs, h2]
      · rw [body_isTraining, h3, decide_eq_decide]
        omega
      · rw [body_sampleHistory, h4, hsp, hmin', List.range_succ, List.map_append,
          List.map_cons, List.map_nil]
      · by_cases hb : (n + 1) % 4 = 0
        · rw [body_epochMetrics_boundary f t (by rw [hsp]; exact hb), h5, hsp, h6, h7]
          have e1 : (n + 1) / 4 = n / 4 + 1 := by omega
          have e2 : n % 4 = 3 := by omega
          have e3 : 4 * (n / 4) + 3 = n := by omega
          rw [hmin', e1, List.range_succ, List.map_append, e2]
          congr 1
          simp only [List.map_cons, List.map_nil]
          congr 1
          rw [epochEntry]
          have hL : (∑ j in Finset.range 4, (f (4 * (n / 4) + j)).loss)
              = (∑ j in Finset.range 3, (f (4 * (n / 4) + j)).loss) + (f n).loss := by
            rw [Finset.sum_range_succ, e3]
          have hA : (∑ j in Finset.range 4, (f (4 * (n / 4) + j)).accuracy)
              = (∑ j in Finset.range 3, (f (4 * (n / 4) + j)).accuracy) + (f n).accuracy := by
            rw [Finset.sum_range_succ, e3]
          rw [hL, hA]
        · rw [body_epochMetrics_mid f t (by rw [hsp]; exact hb), h5, hmin']
          have e1 : (n + 1) / 4 = n / 4 := by omega
          rw [e1]
      · by_cases hb : (n + 1) % 4 = 0
        · rw [body_lossSum_boundary f t (by rw [hsp]; exact hb), hmin', hb]
          simp
        · rw [body_lossSum_mid f t (by rw [hsp]; exact hb), h6, hsp, hmin']
          have e1 : (n + 1) % 4 = n % 4 + 1 := by omega
          have e2 : (n + 1) / 4 = n / 4 := by omega
          have e3 : 4 * (n / 4) + n % 4 = n := by omega
          rw [e1, e2, Finset.sum_range_succ, e3]
      · by_cases hb : (n + 1) % 4 = 0
        · rw [body_accSum_boundary f t (by rw [hsp]; exact hb), hmin', hb]
          simp
        · rw [body_accSum_mid f t (by rw [hsp]; exact hb), h7, hsp, hmin']
          have e1 : (n + 1) % 4 = n % 4 + 1 := by omega
          have e2 : (n + 1) / 4 = n / 4 := by omega
          have e3 : 4 * (n / 4) + n % 4 = n := by omega
          rw [e1, e2, Finset.sum_range_succ, e3]

/-- Across any number of loop invocations, the weights referenced by the
`networkState` snapshot are exactly the ones referenced at the start: the
loop's snapshot replacement always carries `prev.weights`, and no other part
of the loop touches the host weight arrays. -/
lemma runLoop_weights (f : Nat → StepOutcome) (s : OrchState) (n : Nat) :
    ((runLoop f n s).networkState).map NetworkState.weights
      = s.networkState.map NetworkState.weights := by
  induction n with
  | zero => rfl
  | succ n ih =>
    have hstep : runLoop f (n + 1) s = trainingLoop f (runLoop f n s) := rfl
    rw [hstep, trainingLoop]
    by_cases hg : (runLoop f n s).maxEpochs ≤ (runLoop f n s).samplesProcessed / 4
    · rw [if_pos hg]
      exact ih
    · rw [if_neg hg, body_networkState, Option.map_map]
      exact ih

/-! ## Kernel projection lemmas -/

lemma backwardPass_loss (cfg : NeuralNetworkConfig) (s : KernelState)
    (h : 0 < cfg.outputSize) :
    (backwardPass cfg s).loss = s.outputLayer 0 - s.targetOutput 0 := by
  simp only [backwardPass]
  rw [if_pos h]

lemma backwardPass_gradient (cfg : NeuralNetworkConfig) (s : KernelState)
    (n : Nat) (h : n < cfg.outputSize) :
    (backwardPass cfg s).outputGradients n
      = 2 * (s.outputLayer n - s.targetOutput n) * sigmoid_derivative (s.outputLayer n) := by
  simp only [backwardPass]
  rw [if_pos h]

lemma trainNetwork_snd (cfg : NeuralNetworkConfig) (s : KernelState)
    (inputData targetData : Nat → ℝ) :
    (trainNetwork cfg s inputData targetData).2
      = backwardPass cfg (forwardPass cfg
          { s with loss := 0, inputData := inputData, targetOutput := targetData }) := rfl

lemma trainNetwork_fst_outputLayer (cfg : NeuralNetworkConfig) (s : KernelState)
    (inputData targetData : Nat → ℝ) :
    (trainNetwork cfg s inputData targetData).1.outputLayer
      = (forwardPass cfg
          { s with loss := 0, inputData := inputData, targetOutput := targetData }).outputLayer := rfl

/-- `List.get` through a `map` over `range` picks out the generator at the
index. -/
lemma get_map_range {α : Type} (g : Nat → α) (m k : Nat)
    (h : k < (List.map g (List.range m)).length) :
    (List.map g (List.range m)).get ⟨k, h⟩ = g k := by
  simp [List.get_eq_getElem]

/-! ## Claims -/

/-- C1: the claim states that every training step's backward pass computes a
hidden-layer gradient `(Σ outputGradient × weight) × hiddenActivation ×
(1 − hiddenActivation)` and updates hidden weights and biases from the input
activations.  The backward shader contains no such code: a full
`trainNetwork` step leaves `weightsHidden`, `biasHidden` and
`hiddenGradients` untouched for every configuration, device state and sample
(the `hiddenGradients` buffer is allocated and bound but never written). -/
theorem backward_no_hidden_update (cfg : NeuralNetworkConfig) (s : KernelState)
    (inputData targetData : Nat → ℝ) :
    (trainNetwork cfg s inputData targetData).2.weightsHidden = s.weightsHidden
    ∧ (trainNetwork cfg s inputData targetData).2.biasHidden = s.biasHidden
    ∧ (trainNetwork cfg s inputData targetData).2.hiddenGradients = s.hiddenGradients :=
  ⟨rfl, rfl, rfl⟩

/-- C2 counterexample: at the reachable step with all-zero weights and XOR
row `[0,0] → [0]` (prediction `sigmoid 0 = 1/2`, error `1/2`), the device
loss scalar after the step holds `1/2`, not `error² = 1/4`, and the loss the
caller receives (`1/4`) is not `deviceLoss / outputSize = 1/2`. -/
theorem loss_convention_counterexample :
    (trainNetwork cfgXor zeroKernelState zeroFun zeroFun).2.loss
        ≠ ((trainNetwork cfgXor zeroKernelState zeroFun zeroFun).2.outputLayer 0 - zeroFun 0)
          * ((trainNetwork cfgXor zeroKernelState zeroFun zeroFun).2.outputLayer 0 - zeroFun 0)
    ∧ (trainNetwork cfgXor zeroKernelState zeroFun zeroFun).1.loss
        ≠ (trainNetwork cfgXor zeroKernelState zeroFun zeroFun).2.loss
          / (cfgXor.outputSize : ℝ) := by
  rw [xorStep0_deviceLoss, xorStep0_prediction, xorStep0_hostLoss]
  constructor
  · norm_num [zeroFun]
  · norm_num [cfgXor]

/-- C2 amended: the backward kernel stores the raw output error
(`prediction − target`, written by output neuron 0 only) into the device loss
scalar, and the caller ignores that scalar, computing the step loss
host-side as `(prediction − target) * (prediction − target)` from the
read-back prediction. -/
theorem backward_raw_error_host_squared (cfg : NeuralNetworkConfig)
    (s : KernelState) (inputData targetData : Nat → ℝ) (h : 0 < cfg.outputSize) :
    (trainNetwork cfg s inputData targetData).2.loss
      = (trainNetwork cfg s inputData targetData).1.outputLayer 0 - targetData 0
    ∧ (trainNetwork cfg s inputData targetData).1.loss
      = ((trainNetwork cfg s inputData targetData).1.outputLayer 0 - targetData 0)
        * ((trainNetwork cfg s inputData targetData).1.outputLayer 0 - targetData 0) := by
  refine ⟨?_, rfl⟩
  rw [trainNetwork_snd, backwardPass_loss _ _ h]
  rfl

theorem backward_raw_error_host_squared_witness :
    0 < cfgXor.outputSize
    ∧ ((trainNetwork cfgXor zeroKernelState zeroFun zeroFun).2.loss
        = (trainNetwork cfgXor zeroKernelState zeroFun zeroFun).1.outputLayer 0 - zeroFun 0
      ∧ (trainNetwork cfgXor zeroKernelState zeroFun zeroFun).1.loss
        = ((trainNetwork cfgXor zeroKernelState zeroFun zeroFun).1.outputLayer 0 - zeroFun 0)
          * ((trainNetwork cfgXor zeroKernelState zeroFun zeroFun).1.outputLayer 0 - zeroFun 0)) :=
  ⟨by decide, backward_raw_error_host_squared cfgXor zeroKernelState zeroFun zeroFun (by decide)⟩

/-- C3 counterexample: at the reachable step with all-zero weights and XOR
row `[0,0] → [0]`, the prediction is exactly `1/2`, the claim's formula
`error × prediction × (1 − prediction)` gives `1/8`, but the kernel computes
`2 × error × sigmoid_derivative(prediction) = sigmoid(1/2) × (1 − sigmoid(1/2))
∈ (2/9, 1/4)` — `sigmoid_derivative` re-applies `sigmoid` to the
already-activated prediction, and the extra factor 2 remains. -/
theorem output_gradient_counterexample :
    (trainNetwork cfgXor zeroKernelState zeroFun zeroFun).2.outputGradients 0
      ≠ ((trainNetwork cfgXor zeroKernelState zeroFun zeroFun).1.outputLayer 0 - zeroFun 0)
        * (trainNetwork cfgXor zeroKernelState zeroFun zeroFun).1.outputLayer 0
        * (1 - (trainNetwork cfgXor zeroKernelState zeroFun zeroFun).1.outputLayer 0) := by
  have hp : (trainNetwork cfgXor zeroKernelState zeroFun zeroFun).1.outputLayer 0 = 1/2 :=
    xorStep0_prediction
  rw [xorStep0_gradient, hp]
  have hb := sigmoid_half_bounds
  intro hcontra
  rw [show zeroFun 0 = (0:ℝ) from rfl] at hcontra
  nlinarith [hb.1, hb.2]

/-- C3 amended: for every training step and every output neuron
`n < outputSize`, the output gradient the backward kernel stores equals
`2 × (prediction − target) × sigmoid(prediction) × (1 − sigmoid(prediction))`,
where `prediction` is the forward pass's sigmoid output — the sigmoid
derivative is evaluated at the already-activated prediction and the error is
scaled by 2, not the claimed `error × prediction × (1 − prediction)`. -/
theorem output_gradient_formula (cfg : NeuralNetworkConfig) (s : KernelState)
    (inputData targetData : Nat → ℝ) (n : Nat) (h : n < cfg.outputSize) :
    (trainNetwork cfg s inputData targetData).2.outputGradients n
      = 2 * ((trainNetwork cfg s inputData targetData).1.outputLayer n - targetData n)
        * (sigmoid ((trainNetwork cfg s inputData targetData).1.outputLayer n)
          * (1 - sigmoid ((trainNetwork cfg s inputData targetData).1.outputLayer n))) := by
  rw [trainNetwork_snd, backwardPass_gradient _ _ _ h]
  rfl

theorem output_gradient_formula_witness :
    0 < cfgXor.outputSize
    ∧ (trainNetwork cfgXor zeroKernelState zeroFun zeroFun).2.outputGradients 0
      = 2 * ((trainNetwork cfgXor zeroKernelState zeroFun zeroFun).1.outputLayer 0 - zeroFun 0)
        * (sigmoid ((trainNetwork cfgXor zeroKernelState zeroFun zeroFun).1.outputLayer 0)
          * (1 - sigmoid ((trainNetwork cfgXor zeroKernelState zeroFun zeroFun).1.outputLayer 0))) :=
  ⟨by decide, output_gradient_formula cfgXor zeroKernelState zeroFun zeroFun 0 (by decide)⟩

/-- C8 counterexample: at the reachable step with all-zero weights and XOR
row `[0,0] → [0]`, the prediction is exactly `1/2`: the code's accuracy is 1
(strict `> 0.5` threshold gives binary prediction 0, equal to the target),
while the claimed `round(outputLayer[0]) == target[0]` criterion gives 0
(`round(1/2) = 1 ≠ 0`). -/
theorem accuracy_round_counterexample :
    (trainNetwork cfgXor zeroKernelState zeroFun zeroFun).1.outputLayer 0 = 1/2
    ∧ (trainNetwork cfgXor zeroKernelState zeroFun zeroFun).1.accuracy = 1
    ∧ (if (round ((trainNetwork cfgXor zeroKernelState zeroFun zeroFun).1.outputLayer 0) : ℝ)
          = zeroFun 0 then (1:ℝ) else 0) = 0 := by
  have hp : (trainNetwork cfgXor zeroKernelState zeroFun zeroFun).1.outputLayer 0 = 1/2 :=
    xorStep0_prediction
  refine ⟨hp, xorStep0_accuracy, ?_⟩
  rw [hp]
  have hr : round ((1:ℝ)/2) = 1 := by
    rw [round_eq]
    norm_num
  rw [hr]
  have hc : ¬ (((1:ℤ):ℝ) = zeroFun 0) := by
    norm_num [zeroFun]
  rw [if_neg hc]

/-- C8 amended: the step accuracy equals 1 exactly when the binary prediction
`(prediction > 0.5 ? 1 : 0)` (strict threshold, so a prediction of exactly
0.5 maps to 0, unlike rounding) equals `target[0]`, and it is always exactly
0 or 1, never fractional. -/
theorem accuracy_threshold (cfg : NeuralNetworkConfig) (s : KernelState)
    (inputData targetData : Nat → ℝ) :
    (trainNetwork cfg s inputData targetData).1.accuracy
      = (if (if (trainNetwork cfg s inputData targetData).1.outputLayer 0 > 1/2
            then (1:ℝ) else 0) = targetData 0 then 1 else 0)
    ∧ ((trainNetwork cfg s inputData targetData).1.accuracy = 0
      ∨ (trainNetwork cfg s inputData targetData).1.accuracy = 1) := by
  have hacc : (trainNetwork cfg s inputData targetData).1.accuracy
      = (if (if (trainNetwork cfg s inputData targetData).1.outputLayer 0 > 1/2
            then (1:ℝ) else 0) = targetData 0 then 1 else 0) := rfl
  refine ⟨hacc, ?_⟩
  rw [hacc]
  split_ifs <;> simp

/-- C4 counterexample: after one executed step the history is non-empty, and
`updateConfig` (here with an empty partial config) leaves it non-empty — the
accumulated records are not cleared, contradicting the claim that both
collections become empty. -/
theorem updateConfig_does_not_clear_history :
    (updateConfig {} (runLoop f0 1 s00)).sampleHistory ≠ [] := by decide

/-- C4 amended: `updateConfig` merges the partial configuration and discards
the `networkState` snapshot (sets it to null), but leaves the accumulated
`SampleHistory` and `EpochMetrics` records untouched, in every state. -/
theorem updateConfig_resets_only_network_state (p : ConfigUpdate) (s : OrchState) :
    (updateConfig p s).sampleHistory = s.sampleHistory
    ∧ (updateConfig p s).epochMetrics = s.epochMetrics
    ∧ (updateConfig p s).networkState = none :=
  ⟨rfl, rfl, rfl⟩

/-- C5: for every step index `k` (0-based), the sample the loop feeds to the
step executor — recorded in the k-th `SampleHistory` entry — is row
`k mod 4` of the fixed XOR truth table: the cycling is deterministic and
order-preserving, never random. -/
theorem sample_cycling_deterministic (f : Nat → StepOutcome)
    (cfg : NeuralNetworkConfig) (maxE : Nat) (st : Option NetworkState)
    (n k : Nat) (h : k < (runLoop f n (startState cfg maxE st)).sampleHistory.length) :
    ((runLoop f n (startState cfg maxE st)).sampleHistory.get ⟨k, h⟩).input
        = (xorData.getD (k % 4) ([], [])).1
    ∧ ((runLoop f n (startState cfg maxE st)).sampleHistory.get ⟨k, h⟩).target
        = (xorData.getD (k % 4) ([], [])).2.getD 0 0 := by
  obtain ⟨-, -, -, h4, -, -, -⟩ := runLoop_char f cfg maxE st n
  have hget : (runLoop f n (startState cfg maxE st)).sampleHistory.get ⟨k, h⟩
      = histEntry f k := by
    rw [List.get_of_eq h4 ⟨k, h⟩, get_map_range]
  rw [hget]
  exact ⟨rfl, rfl⟩

theorem sample_cycling_deterministic_witness :
    ∃ h : 0 < (runLoop f0 1 s00).sampleHistory.length,
      ((runLoop f0 1 s00).sampleHistory.get ⟨0, h⟩).input
          = (xorData.getD (0 % 4) ([], [])).1
      ∧ ((runLoop f0 1 s00).sampleHistory.get ⟨0, h⟩).target
          = (xorData.getD (0 % 4) ([], [])).2.getD 0 0 :=
  ⟨by decide, sample_cycling_deterministic f0 cfgXor 10 none 1 0 (by decide)⟩

/-- C6: the step counter never exceeds `4 × maxEpochs` (no step beyond the
boundary is ever executed), and once `floor(totalSteps/4) ≥ maxEpochs` the
very next loop invocation sets `isTraining` to false and executes no further
step. -/
theorem training_halts_at_max_epochs (f : Nat → StepOutcome)
    (cfg : NeuralNetworkConfig) (maxE : Nat) (st : Option NetworkState) (n : Nat) :
    (runLoop f n (startState cfg maxE st)).samplesProcessed ≤ 4 * maxE
    ∧ (maxE ≤ (runLoop f n (startState cfg maxE st)).samplesProcessed / 4 →
        (runLoop f (n + 1) (startState cfg maxE st)).isTraining = false
        ∧ (runLoop f (n + 1) (startState cfg maxE st)).samplesProcessed
            = (runLoop f n (startState cfg maxE st)).samplesProcessed) := by
  obtain ⟨h1, -, -, -, -, -, -⟩ := runLoop_char f cfg maxE st n
  obtain ⟨g1, -, g3, -, -, -, -⟩ := runLoop_char f cfg maxE st (n + 1)
  constructor
  · rw [h1]; omega
  · intro hge
    rw [h1] at hge
    constructor
    · rw [g3, decide_eq_false_iff_not]; omega
    · rw [g1, h1]; omega

theorem training_halts_at_max_epochs_witness :
    1 ≤ (runLoop f0 4 s01).samplesProcessed / 4
    ∧ ((runLoop f0 5 s01).isTraining = false
      ∧ (runLoop f0 5 s01).samplesProcessed = (runLoop f0 4 s01).samplesProcessed) :=
  ⟨by decide, (training_halts_at_max_epochs f0 cfgXor 1 none 4).2 (by decide)⟩

/-- C7: after any number of loop invocations the `EpochMetrics` list has
exactly `floor(completedSteps / 4)` records — one appended exactly every 4th
step — and the e-th record's loss and accuracy are the arithmetic means of
the four per-step loss and accuracy values of that epoch's four samples
(steps `4e` to `4e+3`). -/
theorem epoch_metrics_every_fourth_step (f : Nat → StepOutcome)
    (cfg : NeuralNetworkConfig) (maxE : Nat) (st : Option NetworkState) (n : Nat) :
    (runLoop f n (startState cfg maxE st)).epochMetrics.length
        = (runLoop f n (startState cfg maxE st)).samplesProcessed / 4
    ∧ ∀ e (he : e < (runLoop f n (startState cfg maxE st)).epochMetrics.length),
        ((runLoop f n (startState cfg maxE st)).epochMetrics.get ⟨e, he⟩).loss
            = (∑ j in Finset.range 4, (f (4 * e + j)).loss) / 4
        ∧ ((runLoop f n (startState cfg maxE st)).epochMetrics.get ⟨e, he⟩).accuracy
            = (∑ j in Finset.range 4, (f (4 * e + j)).accuracy) / 4 := by
  obtain ⟨h1, -, -, -, h5, -, -⟩ := runLoop_char f cfg maxE st n
  constructor
  · rw [h5, h1, List.length_map, List.length_range]
  · intro e he
    have hget : (runLoop f n (startState cfg maxE st)).epochMetrics.get ⟨e, he⟩
        = epochEntry f e := by
      rw [List.get_of_eq h5 ⟨e, he⟩, get_map_range]
    rw [hget]
    exact ⟨rfl, rfl⟩

theorem epoch_metrics_every_fourth_step_witness :
    ∃ he : 0 < (runLoop f0 4 s00).epochMetrics.length,
      ((runLoop f0 4 s00).epochMetrics.get ⟨0, he⟩).loss
          = (∑ j in Finset.range 4, (f0 (4 * 0 + j)).loss) / 4
      ∧ ((runLoop f0 4 s00).epochMetrics.get ⟨0, he⟩).accuracy
          = (∑ j in Finset.range 4, (f0 (4 * 0 + j)).accuracy) / 4 :=
  ⟨by decide, (epoch_metrics_every_fourth_step f0 cfgXor 10 none 4).2 0 (by decide)⟩

/-- C9: the claim states a configuration with a non-positive dimension is
rejected with an `InvalidConfig` error before buffer allocation.  No such
validation exists: with `inputSize = 0` (and an available device),
initialization succeeds, allocating weights and buffers (zero-sized where the
dimension is zero) — the only error paths in initialization are the two
device-acquisition failures. -/
theorem invalid_config_not_rejected :
    (initializeNetwork true true
      { inputSize := 0, hiddenSize := 4, outputSize := 1, learningRate := 1/100 }
      (fun _ => 0)).isOk = true := by decide

/-- C9 amended: initialization performs no dimension validation at all: for
every configuration (zero dimensions included) and random stream it returns
`ok` with weight arrays of the §3 sizes and the corresponding buffers; its
error taxonomy contains only the device-acquisition failures. -/
theorem initializeNetwork_no_validation (cfg : NeuralNetworkConfig) (rnd : Nat → ℚ) :
    ∃ w b st, initializeNetwork true true cfg rnd = .ok (w, b, st)
    ∧ w.weightsHidden.length = cfg.inputSize * cfg.hiddenSize
    ∧ w.weightsOutput.length = cfg.hiddenSize * cfg.outputSize := by
  refine ⟨_, _, _, rfl, ?_, ?_⟩ <;>
    simp [initializeNetworkWeights]

/-- C10: across any number of loop invocations from an initialized session,
the weights referenced by the `networkState` snapshot are exactly the initial
host weight arrays: no operation ever writes to them again (the loop's
snapshot replacement carries `prev.weights` by reference, and `trainNetwork`
returns no weight data at all — device-side weight updates never reach the
host arrays). -/
theorem snapshot_weights_never_rewritten (f : Nat → StepOutcome)
    (cfg : NeuralNetworkConfig) (maxE : Nat) (st0 : NetworkState) (n : Nat) :
    ((runLoop f n (startState cfg maxE (some st0))).networkState).map NetworkState.weights
      = some st0.weights :=
  runLoop_weights f (startState cfg maxE (some st0)) n
